import Mathlib

/-!
Verification of the audit orchestration core of the `seo-live-audit` repository.

The development shallowly embeds the TypeScript sources:
  * `src/lib/perplexity.ts` — the AI-analysis adapter `perplexityChat`;
  * `src/lib/dataforseo.ts` — the structured-data adapter client
    (`makeRequest`, `getPlaceholderResponse`, `onPageAudit`);
  * `src/app/api/audit/route.ts` — the `POST` audit handler.

External effects (HTTP fetches, environment variables, the clock) are passed
in explicitly: a fetch is an `Except String _` oracle value standing for the
settled outcome of the awaited call (`Except.error` is a rejected promise /
thrown error, carrying the thrown message), environment variables are
`Option String` arguments, and the clock is a pair of a `String` (the
`toISOString` value) and a `Nat` (the `Date.now()` millisecond count).
JavaScript objects with optional keys become structures with `Option`
fields; an absent key is `none` (for the boolean `fallback` key, absence is
modelled as `false`, which is how the surrounding code reads it).
-/

/-! ## Perplexity adapter (`src/lib/perplexity.ts`) -/

/-- Inner `message` object of a Perplexity API choice. -/
structure PerplexityMessage where
  content : String
deriving DecidableEq

/-- One element of the `choices` array of a Perplexity API response. -/
structure PerplexityChoice where
  message : PerplexityMessage
deriving DecidableEq

/-- Token-usage object optionally returned by the Perplexity API. -/
structure PerplexityUsage where
  prompt_tokens : Nat
  completion_tokens : Nat
  total_tokens : Nat
deriving DecidableEq

/-- Parsed JSON body of a successful Perplexity HTTP response
(interface `PerplexityResponse` in `perplexity.ts`). -/
structure PerplexityResponse where
  choices : List PerplexityChoice
  usage : Option PerplexityUsage := none
deriving DecidableEq

/-- Value resolved by `perplexityChat`: on the success path the keys
`content`, `usage`, `model`, `timestamp`; on the internal fallback path the
keys `content`, `error`, `fallback`, `timestamp`. Absent keys are `none`
(`fallback` absent is `false`). -/
structure PerplexityPayload where
  content : String
  usage : Option PerplexityUsage := none
  model : Option String := none
  error : Option String := none
  fallback : Bool := false
  timestamp : String
deriving DecidableEq

/-- Fixed text of the graceful fallback content in `perplexityChat`. -/
def perplexityFallbackContent : String :=
  "SEO Analysis temporarily unavailable. Please check your API configuration and try again."

/-- Graceful fallback object built in the `catch` branch of `perplexityChat`
(`perplexity.ts` lines 84-89): the original error message is kept in the
`error` key and `fallback` is set. -/
def perplexityFallback (errMsg now : String) : PerplexityPayload :=
  { content := perplexityFallbackContent
    error := some errMsg
    fallback := true
    timestamp := now }

/-- Shallow embedding of `perplexityChat(prompt, model)`.

`apiKey` is `process.env.PERPLEXITY_API_KEY` (`none` = unset); the guard
`if (!apiKey) throw ...` is OUTSIDE the function try/catch, so an unset or
empty key makes the async function reject (`Except.error`). `fetchOutcome`
is the settled outcome of the `fetch` + status check + JSON parse inside the
`try` block: `Except.error m` when the fetch rejected, the response was not
`ok`, or the body failed to parse (with `m` the thrown message). Everything
thrown inside the `try` — including the `No response from Perplexity API`
throw on an empty `choices` array — is caught by the `catch` and turned into
the graceful fallback payload. -/
def perplexityChat (apiKey : Option String)
    (fetchOutcome : Except String PerplexityResponse)
    (prompt model now : String) : Except String PerplexityPayload :=
  let keyFalsy : Bool := match apiKey with
    | none => true
    | some k => k = ""
  if keyFalsy then
    .error "PERPLEXITY_API_KEY environment variable is required"
  else
    match fetchOutcome with
    | .error e => .ok (perplexityFallback e now)
    | .ok data =>
      match data.choices with
      | [] => .ok (perplexityFallback "No response from Perplexity API" now)
      | c :: _ =>
        .ok { content := c.message.content
              usage := data.usage
              model := some model
              timestamp := now }

/-! ## SERP research payload and the missing `researchSerp` -/

/-- One source entry of the SERP research payload (route interface
`AuditResult.serpResearch.sources`). -/
structure SerpSource where
  title : String
  url : String
  snippet : String
deriving DecidableEq

/-- SERP research payload: the `{answer, sources}` shape the route stores in
`auditResult.serpResearch`. -/
structure SerpResearch where
  answer : String
  sources : List SerpSource
deriving DecidableEq

/-- Modelled from the spec: `researchSerp` is imported by the audit route
from the perplexity module, but no definition of it appears in the sources.
Per the spec a provider adapter "accepts a single free-form query plus
locale hints and returns ... either a success payload ... or a typed
failure"; at the route boundary a failure surfaces as a rejection caught by
the route try/catch. We therefore model the call as returning its settled
outcome oracle: `Except.ok` a `SerpResearch` payload, or `Except.error`
with the failure message. -/
def researchSerp (query market language : String)
    (outcome : Except String SerpResearch) : Except String SerpResearch :=
  outcome

/-! ## Audit route (`src/app/api/audit/route.ts`) -/

/-- Value stored in `auditResult.seoAnalysis`: either the payload resolved
by `perplexityChat` (line 81) or the catch-branch object
`\x7b error: 'Failed to get AI analysis' \x7d` (line 84). -/
inductive SeoSection where
  | payload (p : PerplexityPayload)
  | failed (error : String)
deriving DecidableEq

/-- Static `technicalAudit` object assigned at route lines 97-107. -/
structure TechnicalAudit where
  message : String
  suggestedChecks : List String
deriving DecidableEq

/-- Value stored in `auditResult.technicalAudit`: the static placeholder
object, or the catch-branch object `\x7b error: ... \x7d` (route line 134). -/
inductive TechnicalSection where
  | ok (t : TechnicalAudit)
  | failed (error : String)
deriving DecidableEq

/-- Static `contentAnalysis` object assigned at route lines 109-119. -/
structure ContentAnalysis where
  message : String
  suggestions : List String
deriving DecidableEq

/-- Static `competitorAnalysis` object assigned at route lines 121-131. -/
structure CompetitorAnalysis where
  message : String
  tasks : List String
deriving DecidableEq

/-- Embedding of the route interface `AuditResult`. The optional keys of
the TypeScript interface are `Option` fields, so that presence of each
section in the returned JSON is a provable property, not a typing artifact. -/
structure AuditResult where
  domain : String
  market : String
  seoAnalysis : Option SeoSection := none
  serpResearch : Option SerpResearch := none
  technicalAudit : Option TechnicalSection := none
  contentAnalysis : Option ContentAnalysis := none
  competitorAnalysis : Option CompetitorAnalysis := none
  recommendations : Option (List String) := none
  timestamp : String
deriving DecidableEq

/-- Responses the `POST` handler can produce: the 200 JSON report, the 400
validation error, or the 500 outer-catch error. -/
inductive PostResponse where
  | ok (result : AuditResult)
  | badRequest (error : String)
  | internalError (error : String)
deriving DecidableEq

/-- Record of one provider-adapter invocation made by the handler, used to
state that validation failures contact no adapter. -/
inductive AdapterCall where
  | serp (query market language : String)
  | perplexity (prompt : String)
deriving DecidableEq

/-- Oracles for the two provider calls the route makes: the settled outcome
of `researchSerp`, and the environment/fetch inputs of `perplexityChat`.
The route's DataForSEO step performs no network call (its body only
constructs the client and assigns inline placeholder objects), so no oracle
is needed for it. -/
structure Oracles where
  serpOutcome : Except String SerpResearch
  perplexityApiKey : Option String
  perplexityFetch : Except String PerplexityResponse

/-- Fallback `serpResearch` object assigned in the step-1 catch branch
(route lines 59-62). -/
def serpFallback : SerpResearch :=
  { answer := "SERP research temporarily unavailable", sources := [] }

/-- Query string built at route line 50. -/
def serpQuery (domain market : String) : String :=
  "SEO audit analysis for " ++ domain ++ " in " ++ market ++ " market"

/-- Prompt template built at route lines 67-78. -/
def seoPrompt (domain market : String) : String :=
  "Based on SERP analysis for " ++ domain ++ " in the " ++ market ++
  " market, provide comprehensive SEO insights:\n\n1. Current search landscape analysis for " ++
  domain ++ "\x27s industry in " ++ market ++
  "\n2. Competitor ranking patterns and strategies observed in search results\n3. SERP features (snippets, local packs, ads) opportunities for " ++
  domain ++
  "\n4. Content gaps identified from top-ranking pages\n5. Technical SEO recommendations based on " ++
  market ++
  " search behavior\n6. Market-specific keyword opportunities and search intent patterns\n7. Mobile vs desktop SERP differences for " ++
  market ++ "\n8. Local SEO opportunities if applicable to " ++ market ++
  "\n\nProvide actionable recommendations with specific examples from current search results."

/-- Static `technicalAudit` placeholder of route lines 97-107. -/
def technicalAuditPlaceholder (market : String) : TechnicalAudit :=
  { message := "DataForSEO integration placeholder - implement actual API calls"
    suggestedChecks :=
      [ "Page speed analysis with Core Web Vitals"
      , "Mobile responsiveness for " ++ market ++ " market"
      , "Meta tags optimization based on SERP analysis"
      , "Internal linking structure optimization"
      , "Schema markup implementation for SERP features"
      , "Local SEO setup for " ++ market ++ " market" ] }

/-- Static `contentAnalysis` placeholder of route lines 109-119. -/
def contentAnalysisPlaceholder (market : String) : ContentAnalysis :=
  { message := "Content analysis based on SERP research"
    suggestions :=
      [ "Keyword density analysis for " ++ market ++ " search terms"
      , "Content gap analysis vs top SERP competitors"
      , "Readability assessment for target market"
      , "Content freshness evaluation"
      , "Featured snippet optimization opportunities"
      , "Market-specific content localization for " ++ market ] }

/-- Static `competitorAnalysis` placeholder of route lines 121-131. -/
def competitorAnalysisPlaceholder (market : String) : CompetitorAnalysis :=
  { message := "Competitor analysis based on SERP data"
    tasks :=
      [ "Identify top SERP competitors in " ++ market
      , "Analyze competitor keyword strategies from search results"
      , "Compare backlink profiles of ranking competitors"
      , "Content strategy comparison with SERP leaders"
      , "Local competitor analysis for " ++ market ++ " market"
      , "SERP feature competition analysis" ] }

/-- Recommendations list assigned at route lines 138-148: a fixed list of
nine strings templated only on the market. -/
def recommendationsList (market : String) : List String :=
  [ "Target SERP-identified keyword opportunities in " ++ market
  , "Optimize for featured snippets based on current search results"
  , "Implement schema markup to compete for rich results"
  , "Improve page loading speed to match " ++ market ++ " SERP leaders"
  , "Build quality backlinks relevant to " ++ market ++ " search landscape"
  , "Create content targeting " ++ market ++ "-specific search intent"
  , "Optimize for voice search queries prevalent in search results"
  , "Enhance local SEO presence in " ++ market ++ " market"
  , "Implement mobile-first design based on SERP mobile analysis" ]

/-- Step 1 of the route (lines 48-63): await `researchSerp`; on rejection
store the fixed fallback object. -/
def runStepSerp (domain market : String) (o : Oracles) : SerpResearch :=
  match researchSerp (serpQuery domain market) market "en" o.serpOutcome with
  | .ok r => r
  | .error _ => serpFallback

/-- Step 2 of the route (lines 65-85): await `perplexityChat` on the SEO
prompt; on rejection store `\x7b error: 'Failed to get AI analysis' \x7d`. -/
def runStepSeo (domain market : String) (o : Oracles) (now : String) : SeoSection :=
  match perplexityChat o.perplexityApiKey o.perplexityFetch
      (seoPrompt domain market) "sonar-small-online" now with
  | .ok p => .payload p
  | .error _ => .failed "Failed to get AI analysis"

/-- Assembly of the report (route lines 41-46 for the envelope, the three
static section assignments of step 3, and lines 138-148 for the
recommendations). Step 3's `try` body performs no fallible operation — it
only constructs `DataForSEOClient` (which merely reads the environment) and
assigns inline object literals, the DataForSEO API calls being left as
comments — so its catch branch (which would reassign only `technicalAudit`)
is unreachable and the three static sections are always stored. -/
def assembleReport (domain market : String) (serpSection : SerpResearch)
    (seoSection : SeoSection) (now : String) : AuditResult :=
  { domain := domain
    market := market
    timestamp := now
    serpResearch := some serpSection
    seoAnalysis := some seoSection
    technicalAudit := some (.ok (technicalAuditPlaceholder market))
    contentAnalysis := some (contentAnalysisPlaceholder market)
    competitorAnalysis := some (competitorAnalysisPlaceholder market)
    recommendations := some (recommendationsList market) }

/-- Body of the `POST` handler after validation succeeded. -/
def runAudit (domain market : String) (o : Oracles) (now : String) : AuditResult :=
  assembleReport domain market (runStepSerp domain market o)
    (runStepSeo domain market o now) now

/-- Shallow embedding of the `POST` handler of `route.ts`, for a request
whose body parsed to the pair `(domain, market)`. Returns the response
together with the list of provider-adapter invocations performed. The
JavaScript guard `if (!domain || !market)` is the emptiness test on the two
strings. On the valid path both adapters are always invoked (each call is
individually wrapped, so their outcomes never abort the handler). -/
def handlePOST (domain market : String) (o : Oracles) (now : String) :
    PostResponse × List AdapterCall :=
  if domain = "" ∨ market = "" then
    (.badRequest "Domain and market are required", [])
  else
    (.ok (runAudit domain market o now),
     [.serp (serpQuery domain market) market "en",
      .perplexity (seoPrompt domain market)])

/-! ## DataForSEO client (`src/lib/dataforseo.ts`) -/

/-- Credentials read by the `DataForSEOClient` constructor. -/
structure DFSCredentials where
  login : String
  password : String
deriving DecidableEq

/-- Constructor of `DataForSEOClient` (lines 49-58): each credential is the
environment variable, or the empty string when unset (`|| ''`). The missing
credential warning is only logged; construction never fails. -/
def mkDataForSEOClient (envLogin envPassword : Option String) : DFSCredentials :=
  { login := envLogin.getD "", password := envPassword.getD "" }

/-- Summary of crawled pages by status class in the on-page placeholder
(object keys `2xx`, `3xx`, `4xx`, `5xx`). -/
structure PagesSummary where
  p2xx : Nat
  p3xx : Nat
  p4xx : Nat
  p5xx : Nat
deriving DecidableEq

/-- Crawl status object of the on-page placeholder. -/
structure CrawlStatus where
  max_crawl_pages : Nat
  pages_crawled : Nat
  pages_summary : PagesSummary
deriving DecidableEq

/-- Page timing object of the on-page placeholder item. Fractional metric
values are rationals. -/
structure PageTiming where
  time_to_interactive : Nat
  dom_complete : Nat
  largest_contentful_paint : Nat
  first_input_delay : Nat
  cumulative_layout_shift : Rat
deriving DecidableEq

/-- Page metrics object of the on-page placeholder item. -/
structure PageMetrics where
  links_internal : Nat
  links_external : Nat
  duplicate_title : Bool
  duplicate_description : Bool
  duplicate_content : Bool
  click_depth : Nat
deriving DecidableEq

/-- Checks object of the on-page placeholder item. -/
structure PageChecks where
  no_h1_tag : Bool
  low_content_rate : Bool
  high_loading_time : Bool
  is_redirect : Bool
  is_4xx : Bool
  is_5xx : Bool
deriving DecidableEq

/-- One crawled item of the on-page placeholder result. -/
structure OnPageItem where
  resource_type : String
  status_code : Nat
  page_timing : PageTiming
  page_metrics : PageMetrics
  on_page_score : Nat
  checks : PageChecks
deriving DecidableEq

/-- Result object of the on-page placeholder task data. -/
structure OnPageResult where
  crawl_progress : String
  crawl_status : CrawlStatus
  items_count : Nat
  items : List OnPageItem
deriving DecidableEq

/-- Data object of the on-page placeholder task (key `function` of the JSON
object is field `function` here). -/
structure OnPageData where
  api : String
  function : String
  se_type : String
  result : OnPageResult
deriving DecidableEq

/-- One month of search-volume history in the keywords placeholder. -/
structure MonthlySearch where
  year : Nat
  month : Nat
  search_volume : Nat
deriving DecidableEq

/-- One keyword entry of the keywords placeholder result. -/
structure KeywordData where
  keyword : String
  location_code : Nat
  language_code : String
  search_partners : Bool
  competition : String
  competition_index : Nat
  search_volume : Nat
  low_top_of_page_bid : Rat
  high_top_of_page_bid : Rat
  cpc : Rat
  monthly_searches : List MonthlySearch
deriving DecidableEq

/-- Kind-specific payload carried by a placeholder task: the on-page task
carries a `data` object, the keywords task carries a `result` array. -/
inductive DFSTaskPayload where
  | onPage (data : OnPageData)
  | keywords (result : List KeywordData)
deriving DecidableEq

/-- One task of a DataForSEO response; keys absent on one of the two
placeholder shapes are `Option` fields. -/
structure DFSTask where
  id : String
  status_code : Nat
  status_message : String
  time : Option String := none
  cost : Option Rat := none
  result_count : Option Nat := none
  path : Option (List String) := none
  payload : DFSTaskPayload
deriving DecidableEq

/-- Embedding of the interface `DataForSEOResponse` (all keys optional). -/
structure DataForSEOResponse where
  version : Option String := none
  status_code : Option Nat := none
  status_message : Option String := none
  time : Option String := none
  cost : Option Rat := none
  tasks_count : Option Nat := none
  tasks_error : Option Nat := none
  tasks : Option (List DFSTask) := none
deriving DecidableEq

/-- JavaScript `String.prototype.includes` on character lists. -/
def jsIncludesAux (pat : List Char) : List Char → Bool
  | [] => pat.isEmpty
  | c :: rest => pat.isPrefixOf (c :: rest) || jsIncludesAux pat rest

/-- JavaScript `s.includes(pat)`. -/
def jsIncludes (s pat : String) : Bool := jsIncludesAux pat.data s.data

/-- Base placeholder envelope of `getPlaceholderResponse`
(`dataforseo.ts` lines 102-110). -/
def dfsBaseResponse (now : String) : DataForSEOResponse :=
  { version := some "0.1.20240814"
    status_code := some 20000
    status_message := some "Ok. (placeholder response)"
    time := some now
    cost := some 0
    tasks_count := some 1
    tasks_error := some 0 }

/-- Placeholder on-page task (`dataforseo.ts` lines 115-172); `nowMs` is
the `Date.now()` value appended to the task id. -/
def dfsOnPageTask (endpoint now : String) (nowMs : Nat) : DFSTask :=
  { id := "placeholder_onpage_" ++ toString nowMs
    status_code := 20000
    status_message := "Ok. (placeholder)"
    time := some now
    cost := some 0
    result_count := some 1
    path := some [endpoint]
    payload := .onPage
      { api := "on_page"
        function := "task_post"
        se_type := "task_post"
        result :=
          { crawl_progress := "finished"
            crawl_status :=
              { max_crawl_pages := 100
                pages_crawled := 50
                pages_summary := { p2xx := 45, p3xx := 3, p4xx := 2, p5xx := 0 } }
            items_count := 50
            items :=
              [ { resource_type := "html"
                  status_code := 200
                  page_timing :=
                    { time_to_interactive := 2500
                      dom_complete := 2200
                      largest_contentful_paint := 1800
                      first_input_delay := 100
                      cumulative_layout_shift := 1/10 }
                  page_metrics :=
                    { links_internal := 25
                      links_external := 8
                      duplicate_title := false
                      duplicate_description := false
                      duplicate_content := false
                      click_depth := 2 }
                  on_page_score := 85
                  checks :=
                    { no_h1_tag := false
                      low_content_rate := false
                      high_loading_time := true
                      is_redirect := false
                      is_4xx := false
                      is_5xx := false } } ] } } }

/-- Placeholder keywords task (`dataforseo.ts` lines 179-200). -/
def dfsKeywordsTask (nowMs : Nat) : DFSTask :=
  { id := "placeholder_keywords_" ++ toString nowMs
    status_code := 20000
    status_message := "Ok. (placeholder)"
    payload := .keywords
      [ { keyword := "example seo"
          location_code := 2840
          language_code := "en"
          search_partners := false
          competition := "MEDIUM"
          competition_index := 45
          search_volume := 8900
          low_top_of_page_bid := 12/10
          high_top_of_page_bid := 38/10
          cpc := 25/10
          monthly_searches :=
            [ { year := 2024, month := 7, search_volume := 8900 }
            , { year := 2024, month := 6, search_volume := 9200 }
            , { year := 2024, month := 5, search_volume := 8700 } ] } ] }

/-- Embedding of `DataForSEOClient.getPlaceholderResponse(endpoint)`
(lines 101-205): an on-page task list when the endpoint mentions
`/on_page/`, a keywords task list when it mentions `/keywords_data/`, and
the bare base envelope otherwise. -/
def getPlaceholderResponse (endpoint now : String) (nowMs : Nat) : DataForSEOResponse :=
  if jsIncludes endpoint "/on_page/" then
    { dfsBaseResponse now with tasks := some [dfsOnPageTask endpoint now nowMs] }
  else if jsIncludes endpoint "/keywords_data/" then
    { dfsBaseResponse now with tasks := some [dfsKeywordsTask nowMs] }
  else
    dfsBaseResponse now

/-- Embedding of `DataForSEOClient.makeRequest(endpoint, data)`
(lines 71-96): with a missing credential the placeholder is returned before
any fetch; otherwise the fetch outcome is returned, any rejection or non-ok
status being converted to the placeholder by the catch branch. -/
def makeRequest (creds : DFSCredentials) (endpoint : String)
    (fetchOutcome : Except String DataForSEOResponse)
    (now : String) (nowMs : Nat) : DataForSEOResponse :=
  if creds.login = "" ∨ creds.password = "" then
    getPlaceholderResponse endpoint now nowMs
  else
    match fetchOutcome with
    | .ok r => r
    | .error _ => getPlaceholderResponse endpoint now nowMs

/-- Optional fields of the `options` argument of `onPageAudit`
(interface `OnPageTask` minus the mandatory domain). -/
structure OnPageOptions where
  limit : Option Nat := none
  crawl_max_pages : Option Nat := none
  load_resources : Option Bool := none
  enable_javascript : Option Bool := none
  enable_browser_rendering : Option Bool := none
deriving DecidableEq

/-- JavaScript `x || d` for an optional boolean `x` (absent and `false` are
falsy). -/
def jsOrBool (o : Option Bool) (d : Bool) : Bool :=
  match o with
  | some b => b || d
  | none => d

/-- JavaScript `x || d` for an optional number `x` (absent and `0` are
falsy). -/
def jsOrNat (o : Option Nat) (d : Nat) : Nat :=
  match o with
  | some n => if n = 0 then d else n
  | none => d

/-- Replacement for the anchored regex `^https?:\/\/`: drops one leading
`http://` or `https://` from a character list. -/
def stripSchemeList : List Char → List Char
  | 'h' :: 't' :: 't' :: 'p' :: ':' :: '/' :: '/' :: rest => rest
  | 'h' :: 't' :: 't' :: 'p' :: 's' :: ':' :: '/' :: '/' :: rest => rest
  | l => l

/-- JavaScript `domain.replace(/^https?:\/\//, '')`. -/
def stripHttpScheme (s : String) : String := String.mk (stripSchemeList s.data)

/-- JavaScript `domain.replace(/[^a-zA-Z0-9]/g, '_')`. -/
def sanitizeTag (s : String) : String :=
  String.mk (s.data.map (fun c => if c.isAlpha || c.isDigit then c else '_'))

/-- Task object posted by `onPageAudit` (`dataforseo.ts` lines 211-221). -/
structure OnPageTaskData where
  domain : String
  limit : Nat
  crawl_max_pages : Nat
  load_resources : Bool
  enable_javascript : Bool
  enable_browser_rendering : Bool
  custom_js : String
  tag : String
deriving DecidableEq

/-- Construction of the task data inside `onPageAudit`: scheme-stripped
domain, `|| `-defaulted numeric and boolean options, the fixed custom
JavaScript snippet, and a tag built from the sanitized domain and
`Date.now()`. -/
def mkOnPageTaskData (domain : String) (options : OnPageOptions) (nowMs : Nat) :
    OnPageTaskData :=
  { domain := stripHttpScheme domain
    limit := jsOrNat options.limit 100
    crawl_max_pages := jsOrNat options.crawl_max_pages 50
    load_resources := jsOrBool options.load_resources true
    enable_javascript := jsOrBool options.enable_javascript true
    enable_browser_rendering := jsOrBool options.enable_browser_rendering true
    custom_js := "// Check for Core Web Vitals\n                    window.performance && window.performance.getEntriesByType(\x27navigation\x27);"
    tag := "audit_" ++ sanitizeTag domain ++ "_" ++ toString nowMs }

/-- Embedding of `DataForSEOClient.onPageAudit(domain, options)`
(lines 210-224): posts the constructed task to `/on_page/task_post` through
`makeRequest`. The pair returned is the response together with the posted
task array (the request body). -/
def onPageAudit (creds : DFSCredentials) (domain : String)
    (options : OnPageOptions) (fetchOutcome : Except String DataForSEOResponse)
    (now : String) (nowMs : Nat) : DataForSEOResponse × List OnPageTaskData :=
  (makeRequest creds "/on_page/task_post" fetchOutcome now nowMs,
   [mkOnPageTaskData domain options nowMs])

/-! ## Shared concrete sample values for witnesses and counterexamples -/

/-- Sample successful Perplexity HTTP response body. -/
def sampleResponse : PerplexityResponse :=
  { choices := [{ message := { content := "analysis" } }] }

/-- Sample oracle set in which both provider calls fail. -/
def sampleOracle : Oracles :=
  { serpOutcome := .error "Unreachable"
    perplexityApiKey := none
    perplexityFetch := .error "ECONNREFUSED" }

/-! ## Claims -/

/-- C1: for every request whose domain and market are both non-empty, the
POST audit handler returns a 200 report that contains every declared
section key — `serpResearch`, `seoAnalysis`, `technicalAudit`,
`contentAnalysis`, `competitorAnalysis`, `recommendations` — plus `domain`,
`market` and `timestamp`, no key ever omitted, regardless of which provider
calls fail or throw (the oracle set `o` ranges over all outcomes). -/
theorem C1_structural_completeness (domain market : String) (o : Oracles)
    (now : String) (hd : domain ≠ "") (hm : market ≠ "") :
    ∃ r : AuditResult, (handlePOST domain market o now).1 = .ok r
      ∧ r.domain = domain ∧ r.market = market ∧ r.timestamp = now
      ∧ r.serpResearch.isSome ∧ r.seoAnalysis.isSome
      ∧ r.technicalAudit.isSome ∧ r.contentAnalysis.isSome
      ∧ r.competitorAnalysis.isSome ∧ r.recommendations.isSome := by
  refine ⟨runAudit domain market o now, ?_, ?_⟩
  · simp [handlePOST, hd, hm]
  · simp [runAudit, assembleReport]

/-- Witness for C1 at the concrete request `("example.com", "US")` with
both providers failing. -/
theorem C1_structural_completeness_witness :
    ("example.com" : String) ≠ "" ∧ ("US" : String) ≠ "" ∧
    (∃ r : AuditResult, (handlePOST "example.com" "US" sampleOracle "t").1 = .ok r
      ∧ r.domain = "example.com" ∧ r.market = "US" ∧ r.timestamp = "t"
      ∧ r.serpResearch.isSome ∧ r.seoAnalysis.isSome
      ∧ r.technicalAudit.isSome ∧ r.contentAnalysis.isSome
      ∧ r.competitorAnalysis.isSome ∧ r.recommendations.isSome) :=
  ⟨by decide, by decide,
   C1_structural_completeness "example.com" "US" sampleOracle "t"
     (by decide) (by decide)⟩

/-- C2: per-step isolation. The `seoAnalysis` section is a function of the
Perplexity oracle only — varying the SERP outcome (including any failure)
leaves it byte-identical — and symmetrically the `serpResearch` section is a
function of the SERP oracle only. Hence one step failing never alters the
payload or success status of the other step's section. -/
theorem C2_per_step_isolation (domain market now : String)
    (s₁ s₂ s : Except String SerpResearch) (k k₁ k₂ : Option String)
    (f f₁ f₂ : Except String PerplexityResponse) :
    (runAudit domain market ⟨s₁, k, f⟩ now).seoAnalysis
      = (runAudit domain market ⟨s₂, k, f⟩ now).seoAnalysis
    ∧ (runAudit domain market ⟨s, k₁, f₁⟩ now).serpResearch
      = (runAudit domain market ⟨s, k₂, f₂⟩ now).serpResearch := by
  constructor <;>
    simp [runAudit, assembleReport, runStepSeo, runStepSerp, researchSerp]

/-- C3: an empty domain or market makes the handler answer the 400 error
`Domain and market are required` with no adapter contacted (and conversely,
that answer only arises from emptiness); when both are non-empty the
handler always returns a 200 report, so emptiness is the only call-aborting
input condition. -/
theorem C3_validation (domain market : String) (o : Oracles) (now : String) :
    ((handlePOST domain market o now).1 = .badRequest "Domain and market are required"
        ∧ (handlePOST domain market o now).2 = []
      ↔ (domain = "" ∨ market = ""))
    ∧ (domain ≠ "" → market ≠ "" →
        ∃ r, (handlePOST domain market o now).1 = .ok r) := by
  constructor
  · constructor
    · intro h
      by_contra hc
      push_neg at hc
      simp [handlePOST, hc.1, hc.2] at h
    · intro h
      rw [handlePOST, if_pos h]
      exact ⟨rfl, rfl⟩
  · intro hd hm
    exact ⟨runAudit domain market o now, by simp [handlePOST, hd, hm]⟩

/-- Witness for C3: the concrete empty-domain request aborts with 400 and
an empty adapter trace, and the concrete valid request returns a report. -/
theorem C3_validation_witness :
    (handlePOST "" "US" sampleOracle "t").1
        = .badRequest "Domain and market are required"
    ∧ (handlePOST "" "US" sampleOracle "t").2 = []
    ∧ ∃ r, (handlePOST "example.com" "US" sampleOracle "t").1 = .ok r := by
  have h1 := (C3_validation "" "US" sampleOracle "t").1.mpr (Or.inl rfl)
  have h2 := (C3_validation "example.com" "US" sampleOracle "t").2
    (by decide) (by decide)
  exact ⟨h1.1, h1.2, h2⟩

/-- C4 counterexample: the claim demands that a failing step's section be
marked `FALLBACK` and preserve the original error message in an
`errorDetail` field. In the code the step-1 catch stores the fixed object
`serpFallback`, which has only `answer` and `sources` keys: two runs whose
SERP call fails with different error messages produce byte-identical
sections equal to that constant, so no status marker exists and the
original error message cannot be recovered from the report. -/
theorem C4_counterexample :
    (runAudit "example.com" "US"
        ⟨.error "network down", some "key", .ok sampleResponse⟩ "t").serpResearch
      = some serpFallback
    ∧ (runAudit "example.com" "US"
        ⟨.error "connection refused", some "key", .ok sampleResponse⟩ "t").serpResearch
      = some serpFallback
    ∧ serpFallback
      = { answer := "SERP research temporarily unavailable", sources := [] } :=
  ⟨rfl, rfl, rfl⟩

/-- C4 as amended: every failing step's section is replaced by a fixed
fallback payload, but without a status marker and (for the route-level
catches) without the original error; the original error message is
preserved only when the AI adapter's own fetch fails with a configured key,
in which case its payload carries `error = some e` and `fallback = true`,
and that payload is what the report stores. An unconfigured AI adapter
(missing key) rejects, and the route stores the fixed
`Failed to get AI analysis` object that drops the message. -/
theorem C4_fallback_substitution_amended (domain market now e p mdl k : String)
    (f : Except String PerplexityResponse) (s : Except String SerpResearch)
    (hk : k ≠ "") :
    (runAudit domain market ⟨.error e, some k, f⟩ now).serpResearch
      = some serpFallback
    ∧ perplexityChat (some k) (.error e) p mdl now
      = .ok { content := perplexityFallbackContent, error := some e,
              fallback := true, timestamp := now }
    ∧ (runAudit domain market ⟨s, none, f⟩ now).seoAnalysis
      = some (.failed "Failed to get AI analysis")
    ∧ (runAudit domain market ⟨s, some k, .error e⟩ now).seoAnalysis
      = some (.payload (perplexityFallback e now)) := by
  refine ⟨?_, ?_, ?_, ?_⟩
  · simp [runAudit, assembleReport, runStepSerp, researchSerp]
  · simp [perplexityChat, hk, perplexityFallback]
  · simp [runAudit, assembleReport, runStepSeo, perplexityChat]
  · simp [runAudit, assembleReport, runStepSeo, perplexityChat, hk]

/-- Witness for the amended C4 at concrete inputs. -/
theorem C4_fallback_substitution_amended_witness :
    (runAudit "example.com" "US"
        ⟨.error "Timeout", some "key", .error "HTTP 500"⟩ "t").serpResearch
      = some serpFallback
    ∧ perplexityChat (some "key") (.error "Timeout") "p" "m" "t"
      = .ok { content := perplexityFallbackContent, error := some "Timeout",
              fallback := true, timestamp := "t" }
    ∧ (runAudit "example.com" "US"
        ⟨.error "Unreachable", none, .error "HTTP 500"⟩ "t").seoAnalysis
      = some (.failed "Failed to get AI analysis")
    ∧ (runAudit "example.com" "US"
        ⟨.error "Unreachable", some "key", .error "Timeout"⟩ "t").seoAnalysis
      = some (.payload (perplexityFallback "Timeout" "t")) := by
  have h := C4_fallback_substitution_amended "example.com" "US" "t" "Timeout"
    "p" "m" "key" (.error "HTTP 500") (.error "Unreachable") (by decide)
  exact ⟨h.1, h.2.1, h.2.2.1, h.2.2.2⟩

/-- C5: when no provider credentials are configured — the Perplexity key is
unset so `perplexityChat` rejects before any fetch, the spec-modelled
`researchSerp` rejects with any failure message, and the route's DataForSEO
step performs no network call at all (its credentials are never consulted
by the handler) — a valid request still yields an HTTP-200 structurally
complete report in which every section holds the designated
fallback/placeholder content. -/
theorem C5_all_unconfigured (domain market now e : String)
    (f : Except String PerplexityResponse)
    (hd : domain ≠ "") (hm : market ≠ "") :
    (handlePOST domain market ⟨.error e, none, f⟩ now).1
      = .ok { domain := domain, market := market, timestamp := now,
              serpResearch := some serpFallback,
              seoAnalysis := some (.failed "Failed to get AI analysis"),
              technicalAudit := some (.ok (technicalAuditPlaceholder market)),
              contentAnalysis := some (contentAnalysisPlaceholder market),
              competitorAnalysis := some (competitorAnalysisPlaceholder market),
              recommendations := some (recommendationsList market) } := by
  simp [handlePOST, hd, hm, runAudit, assembleReport, runStepSerp, runStepSeo,
    researchSerp, perplexityChat]

/-- Witness for C5 at the concrete request `("example.com", "US")`. -/
theorem C5_all_unconfigured_witness :
    (handlePOST "example.com" "US" ⟨.error "Unauthenticated", none,
        .error "no fetch"⟩ "t").1
      = .ok { domain := "example.com", market := "US", timestamp := "t",
              serpResearch := some serpFallback,
              seoAnalysis := some (.failed "Failed to get AI analysis"),
              technicalAudit := some (.ok (technicalAuditPlaceholder "US")),
              contentAnalysis := some (contentAnalysisPlaceholder "US"),
              competitorAnalysis := some (competitorAnalysisPlaceholder "US"),
              recommendations := some (recommendationsList "US") } :=
  C5_all_unconfigured "example.com" "US" "t" "Unauthenticated"
    (.error "no fetch") (by decide) (by decide)

/-- C6: determinism of assembly — two assemblies from identical step
outcomes (same domain, market and per-step section payloads) differ at most
in the `timestamp` field: overwriting that field with a common value makes
the two reports byte-identical. -/
theorem C6_assembly_determinism (domain market : String) (sp : SerpResearch)
    (se : SeoSection) (t₁ t₂ s : String) :
    { assembleReport domain market sp se t₁ with timestamp := s }
      = { assembleReport domain market sp se t₂ with timestamp := s } := by
  simp [assembleReport]

/-- C7: the recommendations of the report equal the fixed nine-element list
templated on the market, independent of every step outcome and of the
clock; in particular the list is non-empty and its head is a generic
recommendation qualified by the market. (A degraded section therefore
contributes nothing payload-derived: the list never reads any payload.) -/
theorem C7_recommendations (domain market : String) (o₁ o₂ : Oracles)
    (n₁ n₂ : String) :
    (runAudit domain market o₁ n₁).recommendations
      = some (recommendationsList market)
    ∧ (runAudit domain market o₁ n₁).recommendations
      = (runAudit domain market o₂ n₂).recommendations
    ∧ recommendationsList market ≠ []
    ∧ ("Target SERP-identified keyword opportunities in " ++ market)
        ∈ recommendationsList market := by
  refine ⟨?_, ?_, ?_, ?_⟩
  · simp [runAudit, assembleReport]
  · simp [runAudit, assembleReport]
  · simp [recommendationsList]
  · simp [recommendationsList]

/-- C8 counterexample: with the API key environment variable unset,
`perplexityChat` rejects past its boundary (the guard throw sits before its
try/catch), instead of resolving with a payload — even when the fetch would
have succeeded. -/
theorem C8_counterexample :
    perplexityChat none (.ok sampleResponse) "prompt" "sonar-small-online" "t"
      = .error "PERPLEXITY_API_KEY environment variable is required" := rfl

/-- C8 as amended: for every configured (non-empty) API key,
`perplexityChat` always resolves with a payload — every fetch rejection,
non-ok HTTP status, parse failure or empty `choices` array is converted to
the graceful fallback payload inside its catch; only an unset or empty API
key makes it reject. -/
theorem C8_boundary_totality_amended (k : String)
    (f : Except String PerplexityResponse) (p mdl now : String)
    (hk : k ≠ "") :
    ∃ pl : PerplexityPayload, perplexityChat (some k) f p mdl now = .ok pl := by
  cases f with
  | error e => exact ⟨perplexityFallback e now, by simp [perplexityChat, hk]⟩
  | ok data =>
    cases hc : data.choices with
    | nil =>
      exact ⟨perplexityFallback "No response from Perplexity API" now,
        by simp [perplexityChat, hk, hc]⟩
    | cons c rest =>
      exact ⟨{ content := c.message.content, usage := data.usage,
               model := some mdl, timestamp := now },
        by simp [perplexityChat, hk, hc]⟩

/-- Witness for the amended C8 at a concrete configured key and a failing
fetch. -/
theorem C8_boundary_totality_amended_witness :
    ∃ pl : PerplexityPayload,
      perplexityChat (some "key") (.error "ECONNREFUSED") "p" "m" "t" = .ok pl :=
  C8_boundary_totality_amended "key" (.error "ECONNREFUSED") "p" "m" "t"
    (by decide)

/-- C9: fallback totality and shape — for every endpoint and clock value
`getPlaceholderResponse` yields a response whose envelope carries the
success status code 20000 with zero task errors (the function reads only
the endpoint, so it is trivially total in the domain and market as well);
every task it contains also carries status 20000, an on-page endpoint gets
the full on-page task payload and a keywords endpoint the keywords task
payload, so only the placeholder status message distinguishes synthetic
from real data. -/
theorem C9_fallback_totality (endpoint now : String) (nowMs : Nat) :
    (getPlaceholderResponse endpoint now nowMs).status_code = some 20000
    ∧ (getPlaceholderResponse endpoint now nowMs).tasks_error = some 0
    ∧ (getPlaceholderResponse endpoint now nowMs).version = some "0.1.20240814"
    ∧ (getPlaceholderResponse endpoint now nowMs).status_message.isSome
    ∧ (∀ t ∈ ((getPlaceholderResponse endpoint now nowMs).tasks.getD []),
        t.status_code = 20000)
    ∧ (jsIncludes endpoint "/on_page/" = true →
        (getPlaceholderResponse endpoint now nowMs).tasks
          = some [dfsOnPageTask endpoint now nowMs])
    ∧ (jsIncludes endpoint "/on_page/" = false →
        jsIncludes endpoint "/keywords_data/" = true →
        (getPlaceholderResponse endpoint now nowMs).tasks
          = some [dfsKeywordsTask nowMs]) := by
  by_cases h1 : jsIncludes endpoint "/on_page/" <;>
    by_cases h2 : jsIncludes endpoint "/keywords_data/" <;>
      simp [getPlaceholderResponse, dfsBaseResponse, h1, h2, dfsOnPageTask,
        dfsKeywordsTask]

/-- Witness for C9 at the concrete on-page endpoint posted by
`onPageAudit`. -/
theorem C9_fallback_totality_witness :
    (getPlaceholderResponse "/on_page/task_post" "t" 0).status_code = some 20000
    ∧ (getPlaceholderResponse "/on_page/task_post" "t" 0).tasks
      = some [dfsOnPageTask "/on_page/task_post" "t" 0] := by
  have h := C9_fallback_totality "/on_page/task_post" "t" 0
  exact ⟨h.1, h.2.2.2.2.2.1 (by decide)⟩

/-- C10: the task posted by `onPageAudit` always has `load_resources`,
`enable_javascript` and `enable_browser_rendering` equal to `true` — the
`|| true` defaulting overrides even an explicit `false` — and its domain is
the input with one leading `http://` or `https://` prefix stripped. -/
theorem C10_onpage_forced_options (domain : String) (options : OnPageOptions)
    (nowMs : Nat) (creds : DFSCredentials)
    (f : Except String DataForSEOResponse) (now : String) :
    (onPageAudit creds domain options f now nowMs).2
      = [mkOnPageTaskData domain options nowMs]
    ∧ (mkOnPageTaskData domain options nowMs).load_resources = true
    ∧ (mkOnPageTaskData domain options nowMs).enable_javascript = true
    ∧ (mkOnPageTaskData domain options nowMs).enable_browser_rendering = true
    ∧ (mkOnPageTaskData domain options nowMs).domain = stripHttpScheme domain
    ∧ (∀ s : String, stripHttpScheme ("http://" ++ s) = s)
    ∧ (∀ s : String, stripHttpScheme ("https://" ++ s) = s) := by
  refine ⟨rfl, ?_, ?_, ?_, rfl, ?_, ?_⟩
  · cases h : options.load_resources <;> simp [mkOnPageTaskData, jsOrBool, h]
  · cases h : options.enable_javascript <;> simp [mkOnPageTaskData, jsOrBool, h]
  · cases h : options.enable_browser_rendering <;>
      simp [mkOnPageTaskData, jsOrBool, h]
  · intro s
    have hdata : ("http://" ++ s).data
        = 'h' :: 't' :: 't' :: 'p' :: ':' :: '/' :: '/' :: s.data := by
      rw [String.data_append]
      rfl
    simp [stripHttpScheme, hdata, stripSchemeList]
  · intro s
    have hdata : ("https://" ++ s).data
        = 'h' :: 't' :: 't' :: 'p' :: 's' :: ':' :: '/' :: '/' :: s.data := by
      rw [String.data_append]
      rfl
    simp [stripHttpScheme, hdata, stripSchemeList]
